import Mathlib

/-!
Shallow embedding of the `firebase_auth` Python package
(`requests.py`, `responses.py`, `client.py`) and proofs about it.

Python JSON-compatible values are modelled by the inductive `Json`;
Python dicts are association lists `List (String × Json)` (keys unique in
any dict produced by Python).  Python dataclasses become Lean structures.
Since Python does not enforce dataclass field annotations at runtime,
records that are built from parsed JSON via keyword expansion carry
`Json`-valued fields; request records, which callers build through the
typed constructors, keep `String`/`Bool` fields as annotated.
Fallible Python code (raised exceptions) is modelled with `Except String`.
-/

/-- A Python value that can appear in a parsed or serialized JSON document. -/
inductive Json where
  | str : String → Json
  | num : Int → Json
  | bool : Bool → Json
  | null : Json
  | arr : List Json → Json
  | obj : List (String × Json) → Json

/-- Keys of a Python dict modelled as an association list. -/
def dictKeys (d : List (String × Json)) : List String :=
  d.map Prod.fst

/-- Boolean test that the key set of `d` is exactly `fields`:
every field occurs in `d` and every key of `d` is a field. -/
def kwargsKeysOk (fields : List String) (d : List (String × Json)) : Bool :=
  fields.all (fun f => (d.lookup f).isSome) && d.all (fun kv => fields.contains kv.1)

/-- Escape one character the way `json.dumps` does for the characters that can
occur in this development (quote, backslash and the common control
characters); other characters are emitted verbatim. -/
def pyJsonEscapeChar (c : Char) : String :=
  if c = '"' then "\\\"" else
  if c = '\\' then "\\\\" else
  if c = '\n' then "\\n" else
  if c = '\r' then "\\r" else
  if c = '\t' then "\\t" else
  c.toString

/-- Serialization of a Python `str` as a JSON string literal
(`json.dumps` on a string). -/
def pyDumpsStr (s : String) : String :=
  "\"" ++ String.join (s.data.map pyJsonEscapeChar) ++ "\""

mutual
/-- The Python standard library `json.dumps` with its default separators
`", "` between items and `": "` between a key and a value. -/
def pyDumps : Json → String
  | .str s => pyDumpsStr s
  | .num n => toString n
  | .bool b => if b then "true" else "false"
  | .null => "null"
  | .arr xs => "[" ++ pyDumpsList xs ++ "]"
  | .obj kvs => "\x7b" ++ pyDumpsObj kvs ++ "\x7d"

/-- Serialization of the members of a JSON array, comma-space separated. -/
def pyDumpsList : List Json → String
  | [] => ""
  | [x] => pyDumps x
  | x :: y :: rest => pyDumps x ++ ", " ++ pyDumpsList (y :: rest)

/-- Serialization of the members of a JSON object, comma-space separated. -/
def pyDumpsObj : List (String × Json) → String
  | [] => ""
  | [kv] => pyDumpsStr kv.1 ++ ": " ++ pyDumps kv.2
  | kv :: kv2 :: rest => pyDumpsStr kv.1 ++ ": " ++ pyDumps kv.2 ++ ", " ++ pyDumpsObj (kv2 :: rest)
end

/-! ## requests.py -/

/-- `SignUpWithEmailAndPasswordRequest` from `requests.py`: fields `email`,
`password` and `return_secure_token`, the latter declared with dataclass
field metadata `json_key = "returnSecureToken"`. -/
structure SignUpWithEmailAndPasswordRequest where
  email : String
  password : String
  return_secure_token : Bool
deriving Repr, DecidableEq

/-- The `json_key` entries declared through `field(metadata=...)` on
`SignUpWithEmailAndPasswordRequest`, keyed by internal field name. -/
def SignUpWithEmailAndPasswordRequest.json_key_metadata : List (String × String) :=
  [("return_secure_token", "returnSecureToken")]

/-- `SignInWithEmailAndPasswordRequest` from `requests.py`. -/
structure SignInWithEmailAndPasswordRequest where
  email : String
  password : String
  return_secure_token : Bool
deriving Repr, DecidableEq

/-- The `json_key` entries declared on `SignInWithEmailAndPasswordRequest`. -/
def SignInWithEmailAndPasswordRequest.json_key_metadata : List (String × String) :=
  [("return_secure_token", "returnSecureToken")]

/-- `SendPasswordResetEmailRequest` from `requests.py`: one field `email`,
no metadata. -/
structure SendPasswordResetEmailRequest where
  email : String
deriving Repr, DecidableEq

/-- `VerifyPasswordResetCodeRequest` from `requests.py`: one field
`oob_code` declared with metadata `json_key = "oobCode"`. -/
structure VerifyPasswordResetCodeRequest where
  oob_code : String
deriving Repr, DecidableEq

/-- The `json_key` entries declared on `VerifyPasswordResetCodeRequest`. -/
def VerifyPasswordResetCodeRequest.json_key_metadata : List (String × String) :=
  [("oob_code", "oobCode")]

/-- `ConfirmPasswordResetRequest` from `requests.py`: fields `oob_code` and
`new_password`, each with a `json_key` metadata entry. -/
structure ConfirmPasswordResetRequest where
  oob_code : String
  new_password : String
deriving Repr, DecidableEq

/-- The `json_key` entries declared on `ConfirmPasswordResetRequest`. -/
def ConfirmPasswordResetRequest.json_key_metadata : List (String × String) :=
  [("oob_code", "oobCode"), ("new_password", "newPassword")]

/-- `dataclasses.asdict` on a `SignUpWithEmailAndPasswordRequest`: a dict of
the fields under their attribute (internal) names, in declaration order.
`asdict` does not consult field metadata, so the `json_key` entries play no
role here. -/
def SignUpWithEmailAndPasswordRequest.asdict
    (r : SignUpWithEmailAndPasswordRequest) : List (String × Json) :=
  [("email", .str r.email), ("password", .str r.password),
   ("return_secure_token", .bool r.return_secure_token)]

/-- `dataclasses.asdict` on a `SignInWithEmailAndPasswordRequest`. -/
def SignInWithEmailAndPasswordRequest.asdict
    (r : SignInWithEmailAndPasswordRequest) : List (String × Json) :=
  [("email", .str r.email), ("password", .str r.password),
   ("return_secure_token", .bool r.return_secure_token)]

/-- `dataclasses.asdict` on a `SendPasswordResetEmailRequest`. -/
def SendPasswordResetEmailRequest.asdict
    (r : SendPasswordResetEmailRequest) : List (String × Json) :=
  [("email", .str r.email)]

/-- `dataclasses.asdict` on a `VerifyPasswordResetCodeRequest`: the field is
emitted under its internal name `oob_code`, not the metadata key. -/
def VerifyPasswordResetCodeRequest.asdict
    (r : VerifyPasswordResetCodeRequest) : List (String × Json) :=
  [("oob_code", .str r.oob_code)]

/-- `dataclasses.asdict` on a `ConfirmPasswordResetRequest`. -/
def ConfirmPasswordResetRequest.asdict
    (r : ConfirmPasswordResetRequest) : List (String × Json) :=
  [("oob_code", .str r.oob_code), ("new_password", .str r.new_password)]

/-! ## responses.py -/

/-- `FirebaseErrorItem` from `responses.py`.  Built from provider JSON via
keyword expansion, so the fields hold arbitrary JSON values (Python does not
enforce the `str` annotations at runtime). -/
structure FirebaseErrorItem where
  domain : Json
  reason : Json
  message : Json

/-- `FirebaseErrorMetadata` from `responses.py`. -/
structure FirebaseErrorMetadata where
  errors : List FirebaseErrorItem
  code : Json
  message : Json

/-- `FirebaseResponseError` from `responses.py`. -/
structure FirebaseResponseError where
  error : FirebaseErrorMetadata

/-- `SignUpWithEmailAndPasswordResponse` from `responses.py`. -/
structure SignUpWithEmailAndPasswordResponse where
  idToken : Json
  email : Json
  refreshToken : Json
  expiresIn : Json
  localId : Json

/-- `SignInWithEmailAndPasswordResponse` from `responses.py`. -/
structure SignInWithEmailAndPasswordResponse where
  displayName : Json
  email : Json
  expiresIn : Json
  idToken : Json
  kind : Json
  localId : Json
  refreshToken : Json
  registered : Json

/-- Modelled from the spec: `SendPasswordResetEmailResponse` is imported by
`client.py` from `.responses` but its definition is absent from the source
tree.  Per the spec, response records are per-operation field sets mirroring
the provider JSON exactly with no renaming; the provider ack for the
`sendOobCode` password-reset request carries the target `email`. -/
structure SendPasswordResetEmailResponse where
  email : Json

/-- Modelled from the spec: `VerifyPasswordResetCodeResponse` is imported by
`client.py` but absent from the source tree.  The provider response for a
`resetPassword` verify call carries the `email` and the `requestType`. -/
structure VerifyPasswordResetCodeResponse where
  email : Json
  requestType : Json

/-- Modelled from the spec: `ConfirmPasswordResetResponse` is imported by
`client.py` but absent from the source tree.  The provider response for a
`resetPassword` confirm call carries the `email` and the `requestType`. -/
structure ConfirmPasswordResetResponse where
  email : Json
  requestType : Json

/-! ## Keyword expansion

`Cls(**d)` on a dataclass with only required fields succeeds exactly when
the key set of `d` equals the field set of `Cls` (binding each field to the
value stored under its name) and raises `TypeError` otherwise. -/

/-- The required field names of `FirebaseErrorItem`, in declaration order. -/
def FirebaseErrorItem.fields : List String :=
  ["domain", "reason", "message"]

/-- `FirebaseErrorItem(**item)`: `item` must be a mapping whose key set is
exactly `domain`, `reason`, `message`. -/
def FirebaseErrorItem.fromKwargs : Json → Except String FirebaseErrorItem
  | .obj item =>
    match item.lookup "domain", item.lookup "reason", item.lookup "message" with
    | some d, some r, some m =>
      if item.all (fun kv => FirebaseErrorItem.fields.contains kv.1) then
        .ok ⟨d, r, m⟩
      else
        .error "TypeError"
    | _, _, _ => .error "TypeError"
  | _ => .error "TypeError"

/-- The required field names of `SignUpWithEmailAndPasswordResponse`. -/
def SignUpWithEmailAndPasswordResponse.fields : List String :=
  ["idToken", "email", "refreshToken", "expiresIn", "localId"]

/-- `SignUpWithEmailAndPasswordResponse(**d)`. -/
def SignUpWithEmailAndPasswordResponse.fromKwargs (d : List (String × Json)) :
    Except String SignUpWithEmailAndPasswordResponse :=
  match d.lookup "idToken", d.lookup "email", d.lookup "refreshToken",
      d.lookup "expiresIn", d.lookup "localId" with
  | some a, some b, some c, some e, some f =>
    if d.all (fun kv => SignUpWithEmailAndPasswordResponse.fields.contains kv.1) then
      .ok ⟨a, b, c, e, f⟩
    else
      .error "TypeError"
  | _, _, _, _, _ => .error "TypeError"

/-- The required field names of `SignInWithEmailAndPasswordResponse`. -/
def SignInWithEmailAndPasswordResponse.fields : List String :=
  ["displayName", "email", "expiresIn", "idToken", "kind", "localId",
   "refreshToken", "registered"]

/-- `SignInWithEmailAndPasswordResponse(**d)`. -/
def SignInWithEmailAndPasswordResponse.fromKwargs (d : List (String × Json)) :
    Except String SignInWithEmailAndPasswordResponse :=
  match d.lookup "displayName", d.lookup "email", d.lookup "expiresIn",
      d.lookup "idToken", d.lookup "kind", d.lookup "localId",
      d.lookup "refreshToken", d.lookup "registered" with
  | some a, some b, some c, some e, some f, some g, some h, some i =>
    if d.all (fun kv => SignInWithEmailAndPasswordResponse.fields.contains kv.1) then
      .ok ⟨a, b, c, e, f, g, h, i⟩
    else
      .error "TypeError"
  | _, _, _, _, _, _, _, _ => .error "TypeError"

/-- The required field names of `SendPasswordResetEmailResponse`. -/
def SendPasswordResetEmailResponse.fields : List String :=
  ["email"]

/-- `SendPasswordResetEmailResponse(**d)`. -/
def SendPasswordResetEmailResponse.fromKwargs (d : List (String × Json)) :
    Except String SendPasswordResetEmailResponse :=
  match d.lookup "email" with
  | some a =>
    if d.all (fun kv => SendPasswordResetEmailResponse.fields.contains kv.1) then
      .ok ⟨a⟩
    else
      .error "TypeError"
  | none => .error "TypeError"

/-- The required field names of `VerifyPasswordResetCodeResponse`. -/
def VerifyPasswordResetCodeResponse.fields : List String :=
  ["email", "requestType"]

/-- `VerifyPasswordResetCodeResponse(**d)`. -/
def VerifyPasswordResetCodeResponse.fromKwargs (d : List (String × Json)) :
    Except String VerifyPasswordResetCodeResponse :=
  match d.lookup "email", d.lookup "requestType" with
  | some a, some b =>
    if d.all (fun kv => VerifyPasswordResetCodeResponse.fields.contains kv.1) then
      .ok ⟨a, b⟩
    else
      .error "TypeError"
  | _, _ => .error "TypeError"

/-- The required field names of `ConfirmPasswordResetResponse`. -/
def ConfirmPasswordResetResponse.fields : List String :=
  ["email", "requestType"]

/-- `ConfirmPasswordResetResponse(**d)`. -/
def ConfirmPasswordResetResponse.fromKwargs (d : List (String × Json)) :
    Except String ConfirmPasswordResetResponse :=
  match d.lookup "email", d.lookup "requestType" with
  | some a, some b =>
    if d.all (fun kv => ConfirmPasswordResetResponse.fields.contains kv.1) then
      .ok ⟨a, b⟩
    else
      .error "TypeError"
  | _, _ => .error "TypeError"

/-! ## client.py -/

/-- `FirebaseAuthClient`: holds the one configuration value `_api_key`,
assigned in `__init__` and never written afterwards. -/
structure FirebaseAuthClient where
  _api_key : String
deriving Repr, DecidableEq

/-- The observable content of one HTTP POST issued through `httpx`:
the url, the explicit request header, and the raw request body text. -/
structure HttpPost where
  url : String
  header_content_type : String
  body : String
deriving Repr, DecidableEq

/-- The request half of `_post_request`: the source calls
`client.post(url, headers=..., json=json.dumps(request_body))`.
`json.dumps(request_body)` is a Python `str`, and `httpx` serializes
whatever is passed as the `json=` argument to JSON again, so the body
that goes on the wire is the JSON string literal of the already-serialized
text (this second encoding of a `str` is `pyDumpsStr` under every `httpx`
separator configuration). -/
def _post_request_sent (url : String) (request_body : List (String × Json)) : HttpPost :=
  { url := url
    header_content_type := "application/json"
    body := pyDumpsStr (pyDumps (.obj request_body)) }

/-- The list comprehension
`[FirebaseErrorItem(**item) for item in ...]`, propagating the first
raised `TypeError`. -/
def buildErrorItems : List Json → Except String (List FirebaseErrorItem)
  | [] => .ok []
  | item :: rest => do
    let fi ← FirebaseErrorItem.fromKwargs item
    let tl ← buildErrorItems rest
    pure (fi :: tl)

/-- `_parse_response` from `client.py`: returns `None` when the parsed
response has no top-level `error` key; otherwise builds the
`FirebaseResponseError` from `error.errors` (defaulting to the empty list
via `.get`), `error.code` and `error.message`, in the evaluation order of
the source (a raised `AttributeError`, `TypeError` or `KeyError` is an
`Except.error`). -/
def _parse_response (response_data : List (String × Json)) :
    Except String (Option FirebaseResponseError) :=
  match response_data.lookup "error" with
  | none => .ok none
  | some (.obj errObj) =>
    match (errObj.lookup "errors").getD (Json.arr []) with
    | .arr items =>
      match buildErrorItems items with
      | .error e => .error e
      | .ok errs =>
        match errObj.lookup "code" with
        | none => .error "KeyError"
        | some code =>
          match errObj.lookup "message" with
          | none => .error "KeyError"
          | some msg => .ok (some ⟨⟨errs, code, msg⟩⟩)
    | _ => .error "TypeError"
  | some _ => .error "AttributeError"

/-- The fixed prefix shared by the five endpoint url f-strings. -/
def identitytoolkitHost : String :=
  "https://identitytoolkit.googleapis.com/v1/"

/-- The url built by `sign_up_with_email_and_password`. -/
def sign_up_url (c : FirebaseAuthClient) : String :=
  "https://identitytoolkit.googleapis.com/v1/accounts:signUp?key=" ++ c._api_key

/-- The url built by `sign_in_with_email_and_password`. -/
def sign_in_url (c : FirebaseAuthClient) : String :=
  "https://identitytoolkit.googleapis.com/v1/accounts:signInWithPassword?key=" ++ c._api_key

/-- The url built by `send_password_reset_email`. -/
def send_password_reset_email_url (c : FirebaseAuthClient) : String :=
  "https://identitytoolkit.googleapis.com/v1/accounts:sendOobCode?key=" ++ c._api_key

/-- The url built by `verify_password_reset_code`. -/
def verify_password_reset_code_url (c : FirebaseAuthClient) : String :=
  "https://identitytoolkit.googleapis.com/v1/accounts:resetPassword?key=" ++ c._api_key

/-- The url built by `confirm_password_reset`. -/
def confirm_password_reset_url (c : FirebaseAuthClient) : String :=
  "https://identitytoolkit.googleapis.com/v1/accounts:resetPassword?key=" ++ c._api_key

/-! Each public operation follows the template
`response_body = self._post_request(url, request_body=asdict(req))`,
`err = self._parse_response(response_body)`, `if err is not None: return err`,
`return <OpResponse>(**response_body)`.  The network is external, so each
operation is split into the POST it issues (a function of the client and
the request) and the value it returns (a function of the parsed provider
response). -/

/-- The POST issued by `sign_up_with_email_and_password`. -/
def sign_up_with_email_and_password_post (c : FirebaseAuthClient)
    (req : SignUpWithEmailAndPasswordRequest) : HttpPost :=
  _post_request_sent (sign_up_url c) req.asdict

/-- The value returned by `sign_up_with_email_and_password` once the
provider response has been parsed to `response_body`. -/
def sign_up_with_email_and_password_result (response_body : List (String × Json)) :
    Except String (Sum SignUpWithEmailAndPasswordResponse FirebaseResponseError) := do
  match ← _parse_response response_body with
  | some err => pure (.inr err)
  | none => (SignUpWithEmailAndPasswordResponse.fromKwargs response_body).map .inl

/-- The POST issued by `sign_in_with_email_and_password`. -/
def sign_in_with_email_and_password_post (c : FirebaseAuthClient)
    (req : SignInWithEmailAndPasswordRequest) : HttpPost :=
  _post_request_sent (sign_in_url c) req.asdict

/-- The value returned by `sign_in_with_email_and_password`. -/
def sign_in_with_email_and_password_result (response_body : List (String × Json)) :
    Except String (Sum SignInWithEmailAndPasswordResponse FirebaseResponseError) := do
  match ← _parse_response response_body with
  | some err => pure (.inr err)
  | none => (SignInWithEmailAndPasswordResponse.fromKwargs response_body).map .inl

/-- The POST issued by `send_password_reset_email`. -/
def send_password_reset_email_post (c : FirebaseAuthClient)
    (req : SendPasswordResetEmailRequest) : HttpPost :=
  _post_request_sent (send_password_reset_email_url c) req.asdict

/-- The value returned by `send_password_reset_email`. -/
def send_password_reset_email_result (response_body : List (String × Json)) :
    Except String (Sum SendPasswordResetEmailResponse FirebaseResponseError) := do
  match ← _parse_response response_body with
  | some err => pure (.inr err)
  | none => (SendPasswordResetEmailResponse.fromKwargs response_body).map .inl

/-- The POST issued by `verify_password_reset_code`. -/
def verify_password_reset_code_post (c : FirebaseAuthClient)
    (req : VerifyPasswordResetCodeRequest) : HttpPost :=
  _post_request_sent (verify_password_reset_code_url c) req.asdict

/-- The value returned by `verify_password_reset_code`. -/
def verify_password_reset_code_result (response_body : List (String × Json)) :
    Except String (Sum VerifyPasswordResetCodeResponse FirebaseResponseError) := do
  match ← _parse_response response_body with
  | some err => pure (.inr err)
  | none => (VerifyPasswordResetCodeResponse.fromKwargs response_body).map .inl

/-- The POST issued by `confirm_password_reset`. -/
def confirm_password_reset_post (c : FirebaseAuthClient)
    (req : ConfirmPasswordResetRequest) : HttpPost :=
  _post_request_sent (confirm_password_reset_url c) req.asdict

/-- The value returned by `confirm_password_reset`. -/
def confirm_password_reset_result (response_body : List (String × Json)) :
    Except String (Sum ConfirmPasswordResetResponse FirebaseResponseError) := do
  match ← _parse_response response_body with
  | some err => pure (.inr err)
  | none => (ConfirmPasswordResetResponse.fromKwargs response_body).map .inl

/-- One call of `send_password_reset_email` with the client state threaded
explicitly: the method body reads `self._api_key` and assigns no attribute,
so the state after the call is the state before it, and the call emits
exactly one POST. -/
def send_password_reset_email_call (c : FirebaseAuthClient)
    (req : SendPasswordResetEmailRequest) : FirebaseAuthClient × HttpPost :=
  (c, send_password_reset_email_post c req)

/-! ## Helper lemmas -/

/-- Membership in a Python dict (`k in d`) is success of `d.lookup k`. -/
theorem lookup_isSome_iff (k : String) (d : List (String × Json)) :
    (d.lookup k).isSome = true ↔ k ∈ dictKeys d := by
  induction d with
  | nil => simp [List.lookup, dictKeys]
  | cons kv rest ih =>
    rcases kv with ⟨k1, v1⟩
    by_cases h : k = k1
    · subst h
      simp [List.lookup_cons, dictKeys]
    · simp [List.lookup_cons, beq_false_of_ne h, dictKeys, h] at ih ⊢


/-- A key is absent from a Python dict exactly when `lookup` returns `none`. -/
theorem lookup_eq_none_iff (k : String) (d : List (String × Json)) :
    d.lookup k = none ↔ k ∉ dictKeys d := by
  rw [← lookup_isSome_iff]
  cases d.lookup k <;> simp

/-- `kwargsKeysOk` spelled as set equality of the key set and the field set. -/
theorem kwargsKeysOk_iff (fields : List String) (d : List (String × Json)) :
    kwargsKeysOk fields d = true ↔ (∀ k, k ∈ dictKeys d ↔ k ∈ fields) := by
  constructor
  · intro hb k
    rw [kwargsKeysOk, Bool.and_eq_true, List.all_eq_true, List.all_eq_true] at hb
    constructor
    · intro hk
      rcases List.mem_map.mp hk with ⟨kv, hkv, hfst⟩
      have := hb.2 kv hkv
      rw [← hfst]
      simpa [List.contains, List.elem_iff] using this
    · intro hk
      have := hb.1 k hk
      exact (lookup_isSome_iff k d).mp this
  · intro hiff
    rw [kwargsKeysOk, Bool.and_eq_true, List.all_eq_true, List.all_eq_true]
    constructor
    · intro f hf
      exact (lookup_isSome_iff f d).mpr ((hiff f).mpr hf)
    · intro kv hkv
      simp only [List.contains, List.elem_iff]
      exact (hiff kv.1).mp (List.mem_map.mpr ⟨kv, hkv, rfl⟩)

/-- Success of keyword expansion for `SignUpWithEmailAndPasswordResponse`
is exactly the key-set test. -/
theorem signUp_fromKwargs_ok_iff (d : List (String × Json)) :
    (∃ r, SignUpWithEmailAndPasswordResponse.fromKwargs d = .ok r) ↔
    kwargsKeysOk SignUpWithEmailAndPasswordResponse.fields d = true := by
  constructor
  · rintro ⟨r, hr⟩
    unfold SignUpWithEmailAndPasswordResponse.fromKwargs at hr
    split at hr
    · rename_i a1 a2 a3 a4 a5 heq1 heq2 heq3 heq4 heq5
      split at hr
      · rename_i hguard
        rw [kwargsKeysOk, Bool.and_eq_true]
        refine ⟨?_, hguard⟩
        simp [SignUpWithEmailAndPasswordResponse.fields, heq1, heq2, heq3, heq4, heq5]
      · exact absurd hr (by simp)
    · exact absurd hr (by simp)
  · intro hk
    rw [kwargsKeysOk, Bool.and_eq_true] at hk
    obtain ⟨hall, hcont⟩ := hk
    simp only [SignUpWithEmailAndPasswordResponse.fields, List.all_cons, List.all_nil,
      Bool.and_eq_true, Bool.and_true] at hall
    obtain ⟨q1, q2, q3, q4, q5⟩ := hall
    obtain ⟨a1, h1⟩ := Option.isSome_iff_exists.mp q1
    obtain ⟨a2, h2⟩ := Option.isSome_iff_exists.mp q2
    obtain ⟨a3, h3⟩ := Option.isSome_iff_exists.mp q3
    obtain ⟨a4, h4⟩ := Option.isSome_iff_exists.mp q4
    obtain ⟨a5, h5⟩ := Option.isSome_iff_exists.mp q5
    refine ⟨⟨a1, a2, a3, a4, a5⟩, ?_⟩
    simp only [SignUpWithEmailAndPasswordResponse.fromKwargs, h1, h2, h3, h4, h5]
    rw [if_pos hcont]

/-- Success of keyword expansion for `SignInWithEmailAndPasswordResponse`
is exactly the key-set test. -/
theorem signIn_fromKwargs_ok_iff (d : List (String × Json)) :
    (∃ r, SignInWithEmailAndPasswordResponse.fromKwargs d = .ok r) ↔
    kwargsKeysOk SignInWithEmailAndPasswordResponse.fields d = true := by
  constructor
  · rintro ⟨r, hr⟩
    unfold SignInWithEmailAndPasswordResponse.fromKwargs at hr
    split at hr
    · rename_i a1 a2 a3 a4 a5 a6 a7 a8 heq1 heq2 heq3 heq4 heq5 heq6 heq7 heq8
      split at hr
      · rename_i hguard
        rw [kwargsKeysOk, Bool.and_eq_true]
        refine ⟨?_, hguard⟩
        simp [SignInWithEmailAndPasswordResponse.fields,
          heq1, heq2, heq3, heq4, heq5, heq6, heq7, heq8]
      · exact absurd hr (by simp)
    · exact absurd hr (by simp)
  · intro hk
    rw [kwargsKeysOk, Bool.and_eq_true] at hk
    obtain ⟨hall, hcont⟩ := hk
    simp only [SignInWithEmailAndPasswordResponse.fields, List.all_cons, List.all_nil,
      Bool.and_eq_true, Bool.and_true] at hall
    obtain ⟨q1, q2, q3, q4, q5, q6, q7, q8⟩ := hall
    obtain ⟨a1, h1⟩ := Option.isSome_iff_exists.mp q1
    obtain ⟨a2, h2⟩ := Option.isSome_iff_exists.mp q2
    obtain ⟨a3, h3⟩ := Option.isSome_iff_exists.mp q3
    obtain ⟨a4, h4⟩ := Option.isSome_iff_exists.mp q4
    obtain ⟨a5, h5⟩ := Option.isSome_iff_exists.mp q5
    obtain ⟨a6, h6⟩ := Option.isSome_iff_exists.mp q6
    obtain ⟨a7, h7⟩ := Option.isSome_iff_exists.mp q7
    obtain ⟨a8, h8⟩ := Option.isSome_iff_exists.mp q8
    refine ⟨⟨a1, a2, a3, a4, a5, a6, a7, a8⟩, ?_⟩
    simp only [SignInWithEmailAndPasswordResponse.fromKwargs,
      h1, h2, h3, h4, h5, h6, h7, h8]
    rw [if_pos hcont]

/-! ## Claim theorems -/

/-- Claim C1 (code bug): the spec says serialization maps `oob_code` to its
declared external key `oobCode`, and the source declares exactly that
mapping in the field metadata, but `dataclasses.asdict` ignores metadata:
for the request with `oob_code = "abc"` the POST payload is
`\x7b"oob_code": "abc"\x7d`, the declared external key `oobCode` is absent. -/
theorem c1_asdict_ignores_json_key_metadata :
    VerifyPasswordResetCodeRequest.asdict ⟨"abc"⟩ = [("oob_code", Json.str "abc")] ∧
    "oobCode" ∉ dictKeys (VerifyPasswordResetCodeRequest.asdict ⟨"abc"⟩) ∧
    VerifyPasswordResetCodeRequest.json_key_metadata.lookup "oob_code" = some "oobCode" := by
  exact ⟨rfl, by decide, rfl⟩

/-- Claim C2, counterexample: the sign-up payload for a request with
email `a@b.com` and password `pw123456` holds no `returnSecureToken` key at
all (even when the caller passed `true`), and the value stored under the
internal key `return_secure_token` is whatever the caller passed,
`false` included. -/
theorem c2_counterexample_no_fixed_returnSecureToken :
    (SignUpWithEmailAndPasswordRequest.asdict ⟨"a@b.com", "pw123456", true⟩).lookup
      "returnSecureToken" = none ∧
    (SignUpWithEmailAndPasswordRequest.asdict ⟨"a@b.com", "pw123456", false⟩).lookup
      "return_secure_token" = some (Json.bool false) := ⟨rfl, rfl⟩

/-- Claim C2 as amended: for every email/password pair and caller-supplied
boolean, the sign-up and sign-in payloads contain the email and password
unmodified, together with the field `return_secure_token` — under its
internal name, since `asdict` ignores the `json_key` metadata — set to the
caller-supplied boolean rather than fixed to `true`. -/
theorem c2_payload_contains_credentials (e p : String) (b : Bool) :
    ((SignUpWithEmailAndPasswordRequest.mk e p b).asdict).lookup "email" = some (.str e) ∧
    ((SignUpWithEmailAndPasswordRequest.mk e p b).asdict).lookup "password" = some (.str p) ∧
    ((SignUpWithEmailAndPasswordRequest.mk e p b).asdict).lookup "return_secure_token"
      = some (.bool b) ∧
    ((SignUpWithEmailAndPasswordRequest.mk e p b).asdict).lookup "returnSecureToken" = none ∧
    ((SignInWithEmailAndPasswordRequest.mk e p b).asdict).lookup "email" = some (.str e) ∧
    ((SignInWithEmailAndPasswordRequest.mk e p b).asdict).lookup "password" = some (.str p) ∧
    ((SignInWithEmailAndPasswordRequest.mk e p b).asdict).lookup "return_secure_token"
      = some (.bool b) ∧
    ((SignInWithEmailAndPasswordRequest.mk e p b).asdict).lookup "returnSecureToken" = none :=
  ⟨rfl, rfl, rfl, rfl, rfl, rfl, rfl, rfl⟩

/-- Claim C4 (code bug): `_post_request` passes `json=json.dumps(request_body)`
to `httpx`, which JSON-encodes that already-serialized text a second time.
For the body `\x7b"email": "a@b.com"\x7d` the wire body is the JSON string
literal `"\x7b\"email\": \"a@b.com\"\x7d"`, not the JSON object text the
claim describes; the explicit `Content-Type: application/json` header is set
as claimed. -/
theorem c4_post_request_double_encodes :
    (_post_request_sent "https://example" [("email", Json.str "a@b.com")]).header_content_type
      = "application/json" ∧
    (_post_request_sent "https://example" [("email", Json.str "a@b.com")]).body
      = "\"\x7b\\\"email\\\": \\\"a@b.com\\\"\x7d\"" ∧
    (_post_request_sent "https://example" [("email", Json.str "a@b.com")]).body
      ≠ pyDumps (Json.obj [("email", Json.str "a@b.com")]) := by
  refine ⟨rfl, by decide, by decide⟩

/-- Claim C7: every public operation addresses the shared host with its
operation path suffix and the api key as the `key` query parameter;
verify and confirm share `accounts:resetPassword`. -/
theorem c7_endpoint_urls (c : FirebaseAuthClient) :
    sign_up_url c = identitytoolkitHost ++ "accounts:signUp" ++ "?key=" ++ c._api_key ∧
    sign_in_url c
      = identitytoolkitHost ++ "accounts:signInWithPassword" ++ "?key=" ++ c._api_key ∧
    send_password_reset_email_url c
      = identitytoolkitHost ++ "accounts:sendOobCode" ++ "?key=" ++ c._api_key ∧
    verify_password_reset_code_url c
      = identitytoolkitHost ++ "accounts:resetPassword" ++ "?key=" ++ c._api_key ∧
    confirm_password_reset_url c
      = identitytoolkitHost ++ "accounts:resetPassword" ++ "?key=" ++ c._api_key := by
  refine ⟨?_, ?_, ?_, ?_, ?_⟩ <;> rfl

/-- Claim C8: on the parsed provider response
`\x7b idToken: "t", email: "a@b.com", refreshToken: "r", expiresIn: "3600",
localId: "uid1" \x7d` (no `error` key), sign-up returns the success record
holding exactly those five values. -/
theorem c8_sign_up_concrete_success :
    sign_up_with_email_and_password_result
      [("idToken", Json.str "t"), ("email", Json.str "a@b.com"),
       ("refreshToken", Json.str "r"), ("expiresIn", Json.str "3600"),
       ("localId", Json.str "uid1")]
      = .ok (.inl ⟨.str "t", .str "a@b.com", .str "r", .str "3600", .str "uid1"⟩) := rfl

/-- Claim C9: `send_password_reset_email` leaves the client unchanged, and a
second call on the resulting client with an equal request issues the same
single POST; the POST is computed from the api key and the request record
alone, so equal inputs give equal requests with no cross-call state or
deduplication. -/
theorem c9_send_password_reset_email_stateless (c : FirebaseAuthClient)
    (r1 r2 : SendPasswordResetEmailRequest) (h : r1 = r2) :
    (send_password_reset_email_call c r1).1 = c ∧
    (send_password_reset_email_call ((send_password_reset_email_call c r1).1) r2).2
      = (send_password_reset_email_call c r1).2 ∧
    (send_password_reset_email_call c r1).2
      = _post_request_sent
          ("https://identitytoolkit.googleapis.com/v1/accounts:sendOobCode?key=" ++ c._api_key)
          r1.asdict := by
  subst h
  exact ⟨rfl, rfl, rfl⟩

/-- Witness for C9 at a concrete client and request: the second of two equal
calls issues the same POST as the first. -/
theorem c9_witness :
    (send_password_reset_email_call
        ((send_password_reset_email_call ⟨"K"⟩ ⟨"u@x.io"⟩).1) ⟨"u@x.io"⟩).2
      = (send_password_reset_email_call ⟨"K"⟩ ⟨"u@x.io"⟩).2 :=
  (c9_send_password_reset_email_stateless ⟨"K"⟩ ⟨"u@x.io"⟩ ⟨"u@x.io"⟩ rfl).2.1

/-- Claim C5: when the parsed response holds a top-level `error` object with
an integer `code`, a string `message`, and either no `errors` key or an
`errors` list whose items expand to `FirebaseErrorItem`s, `_parse_response`
returns the `FirebaseResponseError` carrying exactly those values, with the
empty list when `errors` is absent. -/
theorem c5_parse_response_error_extraction
    (d errObj : List (String × Json)) (code : Int) (msg : String)
    (items : List Json) (errs : List FirebaseErrorItem)
    (he : d.lookup "error" = some (.obj errObj))
    (hcode : errObj.lookup "code" = some (.num code))
    (hmsg : errObj.lookup "message" = some (.str msg))
    (herrs : (errObj.lookup "errors" = some (.arr items) ∧ buildErrorItems items = .ok errs)
      ∨ (errObj.lookup "errors" = none ∧ errs = [])) :
    _parse_response d = .ok (some ⟨⟨errs, .num code, .str msg⟩⟩) := by
  rcases herrs with ⟨hi, hb⟩ | ⟨hi, hb⟩
  · simp [_parse_response, he, hi, hb, hcode, hmsg]
  · subst hb
    simp [_parse_response, he, hi, hcode, hmsg, buildErrorItems]

/-- Witness for C5 on the spec's wrong-password example response. -/
theorem c5_witness :
    _parse_response
      [("error", .obj [("code", .num 400), ("message", .str "INVALID_PASSWORD"),
        ("errors", .arr [.obj [("domain", .str "global"), ("reason", .str "invalid"),
          ("message", .str "INVALID_PASSWORD")]])])]
      = .ok (some ⟨⟨[⟨.str "global", .str "invalid", .str "INVALID_PASSWORD"⟩],
          .num 400, .str "INVALID_PASSWORD"⟩⟩) :=
  c5_parse_response_error_extraction _ _ 400 "INVALID_PASSWORD" _ _ rfl rfl rfl
    (Or.inl ⟨rfl, rfl⟩)

/-- Claim C6: on a parsed response without an `error` key, `_parse_response`
returns `None` and every public operation builds its return value by feeding
the full parsed structure to its success-record constructor, the result
living in the two-variant sum of the typed success record and the shared
error record. -/
theorem c6_no_error_key_success_mapping (d : List (String × Json))
    (h : "error" ∉ dictKeys d) :
    _parse_response d = .ok none ∧
    sign_up_with_email_and_password_result d
      = (SignUpWithEmailAndPasswordResponse.fromKwargs d).map Sum.inl ∧
    sign_in_with_email_and_password_result d
      = (SignInWithEmailAndPasswordResponse.fromKwargs d).map Sum.inl ∧
    send_password_reset_email_result d
      = (SendPasswordResetEmailResponse.fromKwargs d).map Sum.inl ∧
    verify_password_reset_code_result d
      = (VerifyPasswordResetCodeResponse.fromKwargs d).map Sum.inl ∧
    confirm_password_reset_result d
      = (ConfirmPasswordResetResponse.fromKwargs d).map Sum.inl := by
  have hl : d.lookup "error" = none := (lookup_eq_none_iff _ _).mpr h
  refine ⟨by simp [_parse_response, hl], ?_, ?_, ?_, ?_, ?_⟩ <;>
    simp only [sign_up_with_email_and_password_result, sign_in_with_email_and_password_result,
      send_password_reset_email_result, verify_password_reset_code_result,
      confirm_password_reset_result, _parse_response, hl] <;> rfl

/-- Witness for C6 at the empty parsed response. -/
theorem c6_witness :
    _parse_response ([] : List (String × Json)) = .ok none :=
  (c6_no_error_key_success_mapping [] (by decide)).1

/-- Claim C3 (missing response records modelled from the spec): on a parsed
response without an `error` key whose fields map one-to-one onto the
success record's named fields, each password-reset operation returns its
operation-specific success record built from exactly those fields. -/
theorem c3_password_reset_success_records (d : List (String × Json))
    (hne : "error" ∉ dictKeys d) :
    ((∀ k, k ∈ dictKeys d ↔ k ∈ SendPasswordResetEmailResponse.fields) →
      ∀ v, d.lookup "email" = some v →
        send_password_reset_email_result d = .ok (.inl ⟨v⟩)) ∧
    ((∀ k, k ∈ dictKeys d ↔ k ∈ VerifyPasswordResetCodeResponse.fields) →
      ∀ v w, d.lookup "email" = some v → d.lookup "requestType" = some w →
        verify_password_reset_code_result d = .ok (.inl ⟨v, w⟩)) ∧
    ((∀ k, k ∈ dictKeys d ↔ k ∈ ConfirmPasswordResetResponse.fields) →
      ∀ v w, d.lookup "email" = some v → d.lookup "requestType" = some w →
        confirm_password_reset_result d = .ok (.inl ⟨v, w⟩)) := by
  have hl : d.lookup "error" = none := (lookup_eq_none_iff _ _).mpr hne
  refine ⟨?_, ?_, ?_⟩
  · intro hkeys v hv
    have hok := (kwargsKeysOk_iff _ d).mpr hkeys
    rw [kwargsKeysOk, Bool.and_eq_true] at hok
    have hres : send_password_reset_email_result d
        = (SendPasswordResetEmailResponse.fromKwargs d).map Sum.inl := by
      simp only [send_password_reset_email_result, _parse_response, hl]
      rfl
    rw [hres]
    simp only [SendPasswordResetEmailResponse.fromKwargs, hv]
    rw [if_pos hok.2]
    rfl
  · intro hkeys v w hv hw
    have hok := (kwargsKeysOk_iff _ d).mpr hkeys
    rw [kwargsKeysOk, Bool.and_eq_true] at hok
    have hres : verify_password_reset_code_result d
        = (VerifyPasswordResetCodeResponse.fromKwargs d).map Sum.inl := by
      simp only [verify_password_reset_code_result, _parse_response, hl]
      rfl
    rw [hres]
    simp only [VerifyPasswordResetCodeResponse.fromKwargs, hv, hw]
    rw [if_pos hok.2]
    rfl
  · intro hkeys v w hv hw
    have hok := (kwargsKeysOk_iff _ d).mpr hkeys
    rw [kwargsKeysOk, Bool.and_eq_true] at hok
    have hres : confirm_password_reset_result d
        = (ConfirmPasswordResetResponse.fromKwargs d).map Sum.inl := by
      simp only [confirm_password_reset_result, _parse_response, hl]
      rfl
    rw [hres]
    simp only [ConfirmPasswordResetResponse.fromKwargs, hv, hw]
    rw [if_pos hok.2]
    rfl

/-- Witness for C3 on concrete provider acks for the three operations. -/
theorem c3_witness :
    send_password_reset_email_result [("email", .str "u@x.io")]
      = .ok (.inl ⟨.str "u@x.io"⟩) ∧
    verify_password_reset_code_result
      [("email", .str "u@x.io"), ("requestType", .str "PASSWORD_RESET")]
      = .ok (.inl ⟨.str "u@x.io", .str "PASSWORD_RESET"⟩) ∧
    confirm_password_reset_result
      [("email", .str "u@x.io"), ("requestType", .str "PASSWORD_RESET")]
      = .ok (.inl ⟨.str "u@x.io", .str "PASSWORD_RESET"⟩) :=
  ⟨(c3_password_reset_success_records _ (by decide)).1
      (by simp [dictKeys, SendPasswordResetEmailResponse.fields]) _ rfl,
   (c3_password_reset_success_records _ (by decide)).2.1
      (by simp [dictKeys, VerifyPasswordResetCodeResponse.fields]) _ _ rfl rfl,
   (c3_password_reset_success_records _ (by decide)).2.2
      (by simp [dictKeys, ConfirmPasswordResetResponse.fields]) _ _ rfl rfl⟩

/-- Mapping a successful `Except` into the left variant of a sum neither
creates nor destroys success values. -/
theorem except_map_inl_ok_iff {α β : Type} (f : Except String α) :
    (∃ r, f.map (Sum.inl : α → α ⊕ β) = .ok (.inl r)) ↔ (∃ r, f = .ok r) := by
  cases f <;> simp [Except.map]

/-- Claim C10: on a parsed response without an `error` key, sign-up
(resp. sign-in) returns its success record exactly when the response's key
set equals the record's field set; for any missing or extra key the call
raises instead of returning either variant. -/
theorem c10_sign_up_sign_in_strict_keys (d : List (String × Json))
    (hne : "error" ∉ dictKeys d) :
    ((∃ r, sign_up_with_email_and_password_result d = .ok (.inl r)) ↔
      (∀ k, k ∈ dictKeys d ↔ k ∈ SignUpWithEmailAndPasswordResponse.fields)) ∧
    ((∃ r, sign_in_with_email_and_password_result d = .ok (.inl r)) ↔
      (∀ k, k ∈ dictKeys d ↔ k ∈ SignInWithEmailAndPasswordResponse.fields)) ∧
    (¬ (∀ k, k ∈ dictKeys d ↔ k ∈ SignUpWithEmailAndPasswordResponse.fields) →
      ∃ msg, sign_up_with_email_and_password_result d = .error msg) ∧
    (¬ (∀ k, k ∈ dictKeys d ↔ k ∈ SignInWithEmailAndPasswordResponse.fields) →
      ∃ msg, sign_in_with_email_and_password_result d = .error msg) := by
  have hl : d.lookup "error" = none := (lookup_eq_none_iff _ _).mpr hne
  have hup : sign_up_with_email_and_password_result d
      = (SignUpWithEmailAndPasswordResponse.fromKwargs d).map Sum.inl := by
    simp only [sign_up_with_email_and_password_result, _parse_response, hl]
    rfl
  have hin : sign_in_with_email_and_password_result d
      = (SignInWithEmailAndPasswordResponse.fromKwargs d).map Sum.inl := by
    simp only [sign_in_with_email_and_password_result, _parse_response, hl]
    rfl
  have hiff1 : (∃ r, SignUpWithEmailAndPasswordResponse.fromKwargs d = .ok r) ↔
      (∀ k, k ∈ dictKeys d ↔ k ∈ SignUpWithEmailAndPasswordResponse.fields) :=
    (signUp_fromKwargs_ok_iff d).trans (kwargsKeysOk_iff _ d)
  have hiff2 : (∃ r, SignInWithEmailAndPasswordResponse.fromKwargs d = .ok r) ↔
      (∀ k, k ∈ dictKeys d ↔ k ∈ SignInWithEmailAndPasswordResponse.fields) :=
    (signIn_fromKwargs_ok_iff d).trans (kwargsKeysOk_iff _ d)
  refine ⟨?_, ?_, ?_, ?_⟩
  · rw [hup, except_map_inl_ok_iff]
    exact hiff1
  · rw [hin, except_map_inl_ok_iff]
    exact hiff2
  · intro hn
    rw [hup]
    cases hf : SignUpWithEmailAndPasswordResponse.fromKwargs d with
    | error e => exact ⟨e, rfl⟩
    | ok r => exact absurd (hiff1.mp ⟨r, hf⟩) hn
  · intro hn
    rw [hin]
    cases hf : SignInWithEmailAndPasswordResponse.fromKwargs d with
    | error e => exact ⟨e, rfl⟩
    | ok r => exact absurd (hiff2.mp ⟨r, hf⟩) hn

/-- Witness for C10: the exact sign-up success shape yields a success
record, and the same shape fed to sign-in (three keys short) raises. -/
theorem c10_witness :
    (∃ r, sign_up_with_email_and_password_result
      [("idToken", Json.str "t"), ("email", Json.str "a"), ("refreshToken", Json.str "r"),
       ("expiresIn", Json.str "3600"), ("localId", Json.str "u")] = .ok (.inl r)) ∧
    (∃ msg, sign_in_with_email_and_password_result
      [("idToken", Json.str "t"), ("email", Json.str "a"), ("refreshToken", Json.str "r"),
       ("expiresIn", Json.str "3600"), ("localId", Json.str "u")] = .error msg) :=
  ⟨((c10_sign_up_sign_in_strict_keys _ (by decide)).1).mpr
      (by simp [dictKeys, SignUpWithEmailAndPasswordResponse.fields]),
   ((c10_sign_up_sign_in_strict_keys _ (by decide)).2.2.2)
      (by
        intro hall
        have hx := (hall "displayName").mpr
          (by simp [SignInWithEmailAndPasswordResponse.fields])
        simp [dictKeys] at hx)⟩
